import Mathlib

/-!
Shallow embedding of the growth-analysis core of `gee_growth.py`
(`run_growth_analysis_by_plot`).  The Earth Engine backend is modeled as a
`Backend` record carrying the materialized answers of the remote calls
(`getInfo` round trips): the scene catalogs with their per-scene metadata,
the parcel area, the per-mask `reduceRegion` pixel counts (which may come
back as `None`, hence `Option Nat`), and the tile URL.  Per-pixel raster
values are rationals (`ℚ`); every per-pixel mask of the source becomes a
decidable boolean predicate on `ℚ`.
-/

/-- A parcel geometry; its contents are opaque to the analyzer, which only
echoes it into the output feature. -/
abbrev Geometry := String

/-- The `plot_data` dict: presence of the `"geometry"` key and the optional
`properties.plot_name` passed through to the output. -/
structure PlotData where
  geometry : Option Geometry
  plot_name : Option String
deriving Repr, DecidableEq

/-- One scene of the `COPERNICUS/S2_SR` catalog: `system:time_start` in epoch
milliseconds, the `CLOUDY_PIXEL_PERCENTAGE` property, and whether the scene
footprint intersects the parcel (the answer `filterBounds` acts on). -/
structure S2Scene where
  time_start : Nat
  cloudy_pixel_percentage : ℚ
  inBounds : Bool
deriving Repr, DecidableEq

/-- One scene of the `COPERNICUS/S1_GRD` catalog with the properties the
source filters on. -/
structure S1Scene where
  time_start : Nat
  inBounds : Bool
  instrumentMode : String
  polarisations : List String
deriving Repr, DecidableEq

/-- The four condition classes used for the pixel-count reductions. -/
inductive ClassId
  | healthy
  | moderate
  | weak
  | stress
deriving Repr, DecidableEq

/-- Materialized backend responses for one invocation: everything the remote
service would return at the `getInfo` points of the source. -/
structure Backend where
  area_hectares : ℚ
  s2_scenes : List S2Scene
  s1_scenes : List S1Scene
  s2_pixel_counts : ClassId → Option Nat
  s1_pixel_counts : ClassId → Option Nat
  tile_url : String

/-- Insertion step for descending sort by capture time
(`.sort("system:time_start", False)`). -/
def insertByTimeDesc {α : Type} (time : α → Nat) (x : α) : List α → List α
  | [] => [x]
  | y :: ys =>
      if time y ≤ time x then x :: y :: ys else y :: insertByTimeDesc time x ys

/-- Sort a scene list by capture time, most recent first. -/
def sortByTimeDesc {α : Type} (time : α → Nat) (l : List α) : List α :=
  l.foldr (insertByTimeDesc time) []

/-- `filterBounds(geometry).filterDate(start, end)` on the S2 catalog:
scenes intersecting the parcel whose capture time lies in `[sd, ed)`
(the backend's inclusive-exclusive date convention). -/
def s2_bounds_date (l : List S2Scene) (sd ed : Nat) : List S2Scene :=
  (l.filter (·.inBounds)).filter
    (fun i => decide (sd ≤ i.time_start) && decide (i.time_start < ed))

/-- Adds `ee.Filter.lt("CLOUDY_PIXEL_PERCENTAGE", 60)`: the quality filter
keeps a scene iff its cloud metric is strictly below 60. -/
def s2_filtered (l : List S2Scene) (sd ed : Nat) : List S2Scene :=
  (s2_bounds_date l sd ed).filter
    (fun i => decide (i.cloudy_pixel_percentage < 60))

/-- The sorted S2 candidate list; the analyzer takes its head (`first()`). -/
def s2_candidates (l : List S2Scene) (sd ed : Nat) : List S2Scene :=
  sortByTimeDesc (·.time_start) (s2_filtered l sd ed)

/-- The S1 pipeline: bounds, date window, `instrumentMode == "IW"`,
`transmitterReceiverPolarisation` contains `"VH"`. -/
def s1_filtered (l : List S1Scene) (sd ed : Nat) : List S1Scene :=
  (((l.filter (·.inBounds)).filter
      (fun i => decide (sd ≤ i.time_start) && decide (i.time_start < ed))).filter
    (fun i => i.instrumentMode == "IW")).filter
    (fun i => i.polarisations.contains "VH")

/-- The sorted S1 candidate list; the analyzer takes its head (`first()`). -/
def s1_candidates (l : List S1Scene) (sd ed : Nat) : List S1Scene :=
  sortByTimeDesc (·.time_start) (s1_filtered l sd ed)

/-- `ndvi.gte(0.2).And(ndvi.lt(0.4))` — the optical weak mask. -/
def s2_weak_mask (v : ℚ) : Bool :=
  decide (0.2 ≤ v) && decide (v < 0.4)

/-- `ndvi.gte(0.0).And(ndvi.lt(0.2))` — the optical stress mask. -/
def s2_stress_mask (v : ℚ) : Bool :=
  decide (0.0 ≤ v) && decide (v < 0.2)

/-- `ndvi.gte(0.4).And(ndvi.lt(0.6))` — the optical moderate mask. -/
def s2_moderate_mask (v : ℚ) : Bool :=
  decide (0.4 ≤ v) && decide (v < 0.6)

/-- `ndvi.gte(0.6)` — the optical healthy mask. -/
def s2_healthy_mask (v : ℚ) : Bool :=
  decide (0.6 ≤ v)

/-- `vh.gte(-11)` — the radar weak mask. -/
def s1_weak_mask (v : ℚ) : Bool :=
  decide (-11 ≤ v)

/-- `vh.lt(-11).And(vh.gt(-13))` — the radar stress mask. -/
def s1_stress_mask (v : ℚ) : Bool :=
  decide (v < -11) && decide (-13 < v)

/-- `vh.lte(-13).And(vh.gt(-15))` — the radar moderate mask. -/
def s1_moderate_mask (v : ℚ) : Bool :=
  decide (v ≤ -13) && decide (-15 < v)

/-- `vh.lte(-15)` — the radar healthy mask. -/
def s1_healthy_mask (v : ℚ) : Bool :=
  decide (v ≤ -15)

/-- The per-pixel categorical encoding built by the `where` chain:
`ee.Image(0).where(weak,1).where(stress,2).where(moderate,3).where(healthy,4)`;
a later `where` overwrites an earlier one where both masks hold. -/
def combined_class_pixel (weak stress moderate healthy : Bool) : Nat :=
  let v1 := if weak then 1 else 0
  let v2 := if stress then 2 else v1
  let v3 := if moderate then 3 else v2
  if healthy then 4 else v3

/-- The categorical raster value of an optical pixel with NDVI `v`. -/
def combined_class_s2 (v : ℚ) : Nat :=
  combined_class_pixel (s2_weak_mask v) (s2_stress_mask v)
    (s2_moderate_mask v) (s2_healthy_mask v)

/-- The categorical raster value of a radar pixel with VH backscatter `v`. -/
def combined_class_s1 (v : ℚ) : Nat :=
  combined_class_pixel (s1_weak_mask v) (s1_stress_mask v)
    (s1_moderate_mask v) (s1_healthy_mask v)

/-- Parameters of `focal_mean(radius=10, units="meters")`. -/
structure FocalMeanParams where
  radius : ℚ
  units : String
deriving Repr, DecidableEq

/-- Parameters of `.visualize(min=0, max=4, palette=[...])`. -/
structure VisualizeParams where
  visMin : Nat
  visMax : Nat
  palette : List String
deriving Repr, DecidableEq

/-- The smoothing applied to the combined categorical raster for display. -/
def growth_focal_mean : FocalMeanParams :=
  { radius := 10, units := "meters" }

/-- The visualization parameters of the source, palette verbatim. -/
def growth_visualize : VisualizeParams :=
  { visMin := 0, visMax := 4
    palette := ["#bc1e29", "#58cf54", "#28ae31", "#056c3e"] }

/-- Python's `round` at two decimals (banker's rounding on the exact value),
for `round(area_hectares, 2)`. -/
def roundHalfEven (q : ℚ) : ℤ :=
  let f := ⌊q⌋
  let frac := q - f
  if frac < 1 / 2 then f
  else if 1 / 2 < frac then f + 1
  else if f % 2 = 0 then f else f + 1

/-- `round(x, 2)` on the exact rational value. -/
def pyRound2 (q : ℚ) : ℚ :=
  (roundHalfEven (q * 100) : ℚ) / 100

/-- Civil calendar date from a count of days since 1970-01-01 (proleptic
Gregorian); models the backend's `ee.Date(...).format("YYYY-MM-dd")`. -/
def civilFromDays (z0 : Int) : Int × Int × Int :=
  let z := z0 + 719468
  let era := (if 0 ≤ z then z else z - 146096) / 146097
  let doe := z - era * 146097
  let yoe := (doe - doe / 1460 + doe / 36524 - doe / 146096) / 365
  let doy := doe - (365 * yoe + yoe / 4 - yoe / 100)
  let mp := (5 * doy + 2) / 153
  let d := doy - (153 * mp + 2) / 5 + 1
  let m := mp + (if mp < 10 then 3 else -9)
  (yoe + era * 400 + (if m ≤ 2 then 1 else 0), m, d)

/-- Zero-pad a month or day number to two digits. -/
def pad2 (n : Int) : String :=
  if n < 10 then "0" ++ toString n else toString n

/-- Format epoch milliseconds as `YYYY-MM-dd` (UTC). -/
def formatYYYYMMDD (millis : Nat) : String :=
  let c := civilFromDays ((millis : Int) / 86400000)
  toString c.1 ++ "-" ++ pad2 c.2.1 ++ "-" ++ pad2 c.2.2

/-- A class percentage: `(count / total * 100) if total else 0`. -/
def pct (count total : Nat) : ℚ :=
  if total = 0 then 0 else (count : ℚ) / (total : ℚ) * 100

/-- The `pixel_summary` block of the response. -/
structure PixelSummary where
  total_pixel_count : Nat
  healthy_pixel_count : Nat
  moderate_pixel_count : Nat
  weak_pixel_count : Nat
  stress_pixel_count : Nat
  healthy_pixel_percentage : ℚ
  moderate_pixel_percentage : ℚ
  weak_pixel_percentage : ℚ
  stress_pixel_percentage : ℚ
  analysis_start_date : Nat
  analysis_end_date : Nat
  latest_image_date : String
deriving Repr, DecidableEq

/-- The analyzer's return value: the top-level convenience fields plus the
feature properties and pixel summary of `response_json`. -/
structure GrowthResult where
  analysis_date : String
  sensor : String
  tile_url : String
  geometry : Geometry
  plot_name : Option String
  area_hectares : ℚ
  data_source : String
  pixel_summary : PixelSummary
deriving Repr, DecidableEq

/-- The two failure modes of the analyzer: `ValueError("plot_data missing
geometry")` and the generic no-imagery `Exception`. -/
inductive GrowthError
  | valueError (msg : String)
  | noImagery (msg : String)
deriving Repr, DecidableEq

/-- Lines 139–192 of the source: materialize the four per-mask
`reduceRegion` counts (`getInfo() or 0` coerces a `None` answer to `0`),
sum them into `total`, compute percentages, and assemble the response. -/
def assembleResult (b : Backend) (pd : PlotData) (geom : Geometry)
    (sd ed : Nat) (sensor data_source : String) (millis : Nat)
    (cnts : ClassId → Option Nat) : GrowthResult :=
  let healthy := (cnts ClassId.healthy).getD 0
  let moderate := (cnts ClassId.moderate).getD 0
  let weak := (cnts ClassId.weak).getD 0
  let stress := (cnts ClassId.stress).getD 0
  let total := healthy + moderate + weak + stress
  let latest_image_date := formatYYYYMMDD millis
  { analysis_date := latest_image_date
    sensor := sensor
    tile_url := b.tile_url
    geometry := geom
    plot_name := pd.plot_name
    area_hectares := pyRound2 b.area_hectares
    data_source := data_source
    pixel_summary :=
      { total_pixel_count := total
        healthy_pixel_count := healthy
        moderate_pixel_count := moderate
        weak_pixel_count := weak
        stress_pixel_count := stress
        healthy_pixel_percentage := pct healthy total
        moderate_pixel_percentage := pct moderate total
        weak_pixel_percentage := pct weak total
        stress_pixel_percentage := pct stress total
        analysis_start_date := sd
        analysis_end_date := ed
        latest_image_date := latest_image_date } }

/-- The core analyzer.  Mirrors `run_growth_analysis_by_plot`: validate the
input, take each sensor's most recent surviving scene, apply the decision
logic (`use_s2 = s2_millis >= s1_millis`, optical wins ties; a lone candidate
is chosen; neither raises), then classify and assemble the result on the
chosen path. -/
def run_growth_analysis_by_plot (plot_data : Option PlotData) (b : Backend)
    (sd ed : Nat) : Except GrowthError GrowthResult :=
  match plot_data with
  | none => .error (.valueError "plot_data missing geometry")
  | some pd =>
    match pd.geometry with
    | none => .error (.valueError "plot_data missing geometry")
    | some geom =>
      match (s2_candidates b.s2_scenes sd ed).head?,
            (s1_candidates b.s1_scenes sd ed).head? with
      | none, none =>
          .error (.noImagery "No Sentinel-1 or Sentinel-2 images found")
      | some i2, some i1 =>
          if i2.time_start ≥ i1.time_start then
            .ok (assembleResult b pd geom sd ed "Sentinel-2" "Sentinel-2 NDVI"
              i2.time_start b.s2_pixel_counts)
          else
            .ok (assembleResult b pd geom sd ed "Sentinel-1" "Sentinel-1 VH"
              i1.time_start b.s1_pixel_counts)
      | some i2, none =>
          .ok (assembleResult b pd geom sd ed "Sentinel-2" "Sentinel-2 NDVI"
            i2.time_start b.s2_pixel_counts)
      | none, some i1 =>
          .ok (assembleResult b pd geom sd ed "Sentinel-1" "Sentinel-1 VH"
            i1.time_start b.s1_pixel_counts)

/-- Project a class's count out of a result's pixel summary. -/
def classCount (r : GrowthResult) : ClassId → Nat
  | ClassId.healthy => r.pixel_summary.healthy_pixel_count
  | ClassId.moderate => r.pixel_summary.moderate_pixel_count
  | ClassId.weak => r.pixel_summary.weak_pixel_count
  | ClassId.stress => r.pixel_summary.stress_pixel_count

/-- Replace one class's backend count response by `None`. -/
def setCountNone (f : ClassId → Option Nat) (cid : ClassId) :
    ClassId → Option Nat :=
  fun c => if c = cid then none else f c

/-- A backend whose pixel-count reduction for class `cid` materializes as
`None` on both sensors, everything else unchanged. -/
def backendWithNone (b : Backend) (cid : ClassId) : Backend :=
  { b with
    s2_pixel_counts := setCountNone b.s2_pixel_counts cid
    s1_pixel_counts := setCountNone b.s1_pixel_counts cid }

/-- Whether an analyzer invocation returned a (complete) result. -/
def isOkResult (e : Except GrowthError GrowthResult) : Bool :=
  match e with
  | Except.ok _ => true
  | Except.error _ => false

/-- A scene sitting exactly at the 60% cloud-cover boundary, inside the
parcel bounds and the window `[0, 2000)`. -/
def cloud60Scene : S2Scene :=
  { time_start := 1000, cloudy_pixel_percentage := 60, inBounds := true }

/-- A scene strictly below the cloud threshold, same bounds and window. -/
def cloud59Scene : S2Scene :=
  { time_start := 1000, cloudy_pixel_percentage := 59, inBounds := true }

/-- A concrete plot record with a geometry and a name. -/
def demoPlot : PlotData :=
  { geometry := some "demo-geometry", plot_name := some "demo-plot" }

/-- A concrete plot record missing the geometry key. -/
def demoPlotNoGeom : PlotData :=
  { geometry := none, plot_name := some "demo-plot" }

/-- A concrete optical scene: newest capture, low cloud. -/
def demoS2 : S2Scene :=
  { time_start := 1000, cloudy_pixel_percentage := 10, inBounds := true }

/-- A concrete radar scene: older capture, IW mode, VH present. -/
def demoS1 : S1Scene :=
  { time_start := 900, inBounds := true, instrumentMode := "IW"
    polarisations := ["VV", "VH"] }

/-- A concrete backend holding one scene per sensor and non-`None` counts. -/
def demoBackend : Backend :=
  { area_hectares := 1
    s2_scenes := [demoS2]
    s1_scenes := [demoS1]
    s2_pixel_counts := fun _ => some 5
    s1_pixel_counts := fun _ => some 3
    tile_url := "tiles.example" }

/-- The demo backend with the radar catalog empty. -/
def demoBackendS2only : Backend := { demoBackend with s1_scenes := [] }

/-- The demo backend with the optical catalog empty. -/
def demoBackendS1only : Backend := { demoBackend with s2_scenes := [] }

/-- The demo backend with both catalogs empty. -/
def demoEmptyBackend : Backend :=
  { demoBackend with s2_scenes := [], s1_scenes := [] }

/-- The result the analyzer produces on the demo inputs (optical wins the
tie-break: 1000 ≥ 900). -/
def demoResult : GrowthResult :=
  assembleResult demoBackend demoPlot "demo-geometry" 0 2000 "Sentinel-2"
    "Sentinel-2 NDVI" 1000 demoBackend.s2_pixel_counts

/-! ### Helper lemmas about the masks -/

lemma s2_stress_mask_iff (v : ℚ) : s2_stress_mask v = true ↔ 0 ≤ v ∧ v < 0.2 := by
  norm_num [s2_stress_mask]

lemma s2_weak_mask_iff (v : ℚ) : s2_weak_mask v = true ↔ 0.2 ≤ v ∧ v < 0.4 := by
  simp [s2_weak_mask]

lemma s2_moderate_mask_iff (v : ℚ) :
    s2_moderate_mask v = true ↔ 0.4 ≤ v ∧ v < 0.6 := by
  simp [s2_moderate_mask]

lemma s2_healthy_mask_iff (v : ℚ) : s2_healthy_mask v = true ↔ 0.6 ≤ v := by
  simp [s2_healthy_mask]

lemma s1_weak_mask_iff (v : ℚ) : s1_weak_mask v = true ↔ -11 ≤ v := by
  simp [s1_weak_mask]

lemma s1_stress_mask_iff (v : ℚ) :
    s1_stress_mask v = true ↔ -13 < v ∧ v < -11 := by
  simp [s1_stress_mask]
  tauto

lemma s1_moderate_mask_iff (v : ℚ) :
    s1_moderate_mask v = true ↔ -15 < v ∧ v ≤ -13 := by
  simp [s1_moderate_mask]
  tauto

lemma s1_healthy_mask_iff (v : ℚ) : s1_healthy_mask v = true ↔ v ≤ -15 := by
  simp [s1_healthy_mask]

lemma bool_incompat {a b : Bool} (h : a = true → b = true → False) :
    (a && b) = false := by
  cases a <;> cases b <;> simp_all

/-! ### Claim theorems: classification thresholds -/

/-- C2: on the optical path the class masks realize exactly the
lower-inclusive ranges stress = [0.0, 0.2), weak = [0.2, 0.4),
moderate = [0.4, 0.6), healthy = [0.6, ∞); the boundary values 0.2, 0.4,
0.6 each fall into the class whose range starts there, and every NDVI
value below 0.0 satisfies no mask. -/
theorem optical_class_ranges :
    (∀ v : ℚ, s2_stress_mask v = true ↔ 0 ≤ v ∧ v < 0.2) ∧
    (∀ v : ℚ, s2_weak_mask v = true ↔ 0.2 ≤ v ∧ v < 0.4) ∧
    (∀ v : ℚ, s2_moderate_mask v = true ↔ 0.4 ≤ v ∧ v < 0.6) ∧
    (∀ v : ℚ, s2_healthy_mask v = true ↔ 0.6 ≤ v) ∧
    (s2_stress_mask 0.2 = false ∧ s2_weak_mask 0.2 = true ∧
      s2_weak_mask 0.4 = false ∧ s2_moderate_mask 0.4 = true ∧
      s2_moderate_mask 0.6 = false ∧ s2_healthy_mask 0.6 = true) ∧
    (∀ v : ℚ, v < 0 → s2_stress_mask v = false ∧ s2_weak_mask v = false ∧
      s2_moderate_mask v = false ∧ s2_healthy_mask v = false) := by
  refine ⟨s2_stress_mask_iff, s2_weak_mask_iff, s2_moderate_mask_iff,
    s2_healthy_mask_iff, by norm_num [s2_stress_mask, s2_weak_mask,
      s2_moderate_mask, s2_healthy_mask], ?_⟩
  intro v hv
  refine ⟨?_, ?_, ?_, ?_⟩ <;>
    · rw [← Bool.not_eq_true]
      simp only [s2_stress_mask_iff, s2_weak_mask_iff, s2_moderate_mask_iff,
        s2_healthy_mask_iff]
      intro h
      first
      | (rcases h with ⟨h1, h2⟩; linarith)
      | linarith

/-- C2 witness: an NDVI value of -1/100 is excluded from all four masks. -/
theorem optical_class_ranges_witness :
    s2_stress_mask (-1/100) = false ∧ s2_weak_mask (-1/100) = false ∧
    s2_moderate_mask (-1/100) = false ∧ s2_healthy_mask (-1/100) = false :=
  optical_class_ranges.2.2.2.2.2 (-1/100) (by norm_num)

/-- C3: on the radar path the class masks realize exactly the inverted
ranges healthy = (v ≤ -15), moderate = (-15 < v ≤ -13),
stress = (-13 < v < -11), weak = (v ≥ -11), with the boundary values -15,
-13, -11 assigned per those inclusive/exclusive rules. -/
theorem radar_class_ranges :
    (∀ v : ℚ, s1_healthy_mask v = true ↔ v ≤ -15) ∧
    (∀ v : ℚ, s1_moderate_mask v = true ↔ -15 < v ∧ v ≤ -13) ∧
    (∀ v : ℚ, s1_stress_mask v = true ↔ -13 < v ∧ v < -11) ∧
    (∀ v : ℚ, s1_weak_mask v = true ↔ -11 ≤ v) ∧
    (s1_healthy_mask (-15) = true ∧ s1_moderate_mask (-15) = false ∧
      s1_moderate_mask (-13) = true ∧ s1_stress_mask (-13) = false ∧
      s1_stress_mask (-11) = false ∧ s1_weak_mask (-11) = true) := by
  refine ⟨s1_healthy_mask_iff, s1_moderate_mask_iff, s1_stress_mask_iff,
    s1_weak_mask_iff, ?_⟩
  norm_num [s1_healthy_mask, s1_moderate_mask, s1_stress_mask, s1_weak_mask]

/-- C4: on both the optical and the radar path, the four class masks are
pairwise disjoint: no pixel value satisfies two of them at once. -/
theorem class_masks_pairwise_disjoint :
    ∀ v : ℚ,
      ((s2_stress_mask v && s2_weak_mask v) = false ∧
       (s2_stress_mask v && s2_moderate_mask v) = false ∧
       (s2_stress_mask v && s2_healthy_mask v) = false ∧
       (s2_weak_mask v && s2_moderate_mask v) = false ∧
       (s2_weak_mask v && s2_healthy_mask v) = false ∧
       (s2_moderate_mask v && s2_healthy_mask v) = false) ∧
      ((s1_stress_mask v && s1_weak_mask v) = false ∧
       (s1_stress_mask v && s1_moderate_mask v) = false ∧
       (s1_stress_mask v && s1_healthy_mask v) = false ∧
       (s1_weak_mask v && s1_moderate_mask v) = false ∧
       (s1_weak_mask v && s1_healthy_mask v) = false ∧
       (s1_moderate_mask v && s1_healthy_mask v) = false) := by
  intro v
  constructor
  · refine ⟨?_, ?_, ?_, ?_, ?_, ?_⟩ <;>
      · refine bool_incompat fun h1 h2 => ?_
        simp only [s2_stress_mask_iff, s2_weak_mask_iff, s2_moderate_mask_iff,
          s2_healthy_mask_iff] at h1 h2
        first
        | (obtain ⟨a1, a2⟩ := h1; obtain ⟨b1, b2⟩ := h2; linarith)
        | (obtain ⟨a1, a2⟩ := h1; linarith)
        | (obtain ⟨b1, b2⟩ := h2; linarith)
        | linarith
  · refine ⟨?_, ?_, ?_, ?_, ?_, ?_⟩ <;>
      · refine bool_incompat fun h1 h2 => ?_
        simp only [s1_stress_mask_iff, s1_weak_mask_iff, s1_moderate_mask_iff,
          s1_healthy_mask_iff] at h1 h2
        first
        | (obtain ⟨a1, a2⟩ := h1; obtain ⟨b1, b2⟩ := h2; linarith)
        | (obtain ⟨a1, a2⟩ := h1; linarith)
        | (obtain ⟨b1, b2⟩ := h2; linarith)
        | linarith

/-! ### Helper lemmas about the analyzer -/

lemma combined_class_pixel_eq (w s m h : Bool) :
    combined_class_pixel w s m h =
      if h = true then 4 else if m = true then 3 else if s = true then 2
      else if w = true then 1 else 0 := rfl

lemma assembleResult_pixel_summary (b : Backend) (pd : PlotData)
    (geom : Geometry) (sd ed : Nat) (sensor ds : String) (millis : Nat)
    (cnts : ClassId → Option Nat) :
    (assembleResult b pd geom sd ed sensor ds millis cnts).pixel_summary =
      { total_pixel_count := (cnts ClassId.healthy).getD 0 +
          (cnts ClassId.moderate).getD 0 + (cnts ClassId.weak).getD 0 +
          (cnts ClassId.stress).getD 0
        healthy_pixel_count := (cnts ClassId.healthy).getD 0
        moderate_pixel_count := (cnts ClassId.moderate).getD 0
        weak_pixel_count := (cnts ClassId.weak).getD 0
        stress_pixel_count := (cnts ClassId.stress).getD 0
        healthy_pixel_percentage := pct ((cnts ClassId.healthy).getD 0)
          ((cnts ClassId.healthy).getD 0 + (cnts ClassId.moderate).getD 0 +
            (cnts ClassId.weak).getD 0 + (cnts ClassId.stress).getD 0)
        moderate_pixel_percentage := pct ((cnts ClassId.moderate).getD 0)
          ((cnts ClassId.healthy).getD 0 + (cnts ClassId.moderate).getD 0 +
            (cnts ClassId.weak).getD 0 + (cnts ClassId.stress).getD 0)
        weak_pixel_percentage := pct ((cnts ClassId.weak).getD 0)
          ((cnts ClassId.healthy).getD 0 + (cnts ClassId.moderate).getD 0 +
            (cnts ClassId.weak).getD 0 + (cnts ClassId.stress).getD 0)
        stress_pixel_percentage := pct ((cnts ClassId.stress).getD 0)
          ((cnts ClassId.healthy).getD 0 + (cnts ClassId.moderate).getD 0 +
            (cnts ClassId.weak).getD 0 + (cnts ClassId.stress).getD 0)
        analysis_start_date := sd
        analysis_end_date := ed
        latest_image_date := formatYYYYMMDD millis } := rfl

lemma classCount_assembleResult (b : Backend) (pd : PlotData)
    (geom : Geometry) (sd ed : Nat) (sensor ds : String) (millis : Nat)
    (cnts : ClassId → Option Nat) (c : ClassId) :
    classCount (assembleResult b pd geom sd ed sensor ds millis cnts) c =
      (cnts c).getD 0 := by
  cases c <;> rfl

lemma pct_pos {c t : Nat} (ht : 0 < t) :
    pct c t = (c : ℚ) / (t : ℚ) * 100 := by
  rw [pct, if_neg (Nat.pos_iff_ne_zero.mp ht)]

lemma pct_zero (c : Nat) : pct c 0 = 0 := by
  rw [pct, if_pos rfl]

lemma pct_sum_eq_100 {h m w s : Nat} (ht : 0 < h + m + w + s) :
    pct h (h + m + w + s) + pct m (h + m + w + s) +
      pct w (h + m + w + s) + pct s (h + m + w + s) = 100 := by
  have hne : ((h : ℚ) + m + w + s) ≠ 0 := by
    have h0 : ((h + m + w + s : Nat) : ℚ) ≠ 0 := by
      exact_mod_cast Nat.pos_iff_ne_zero.mp ht
    push_cast at h0
    exact h0
  rw [pct_pos ht, pct_pos ht, pct_pos ht, pct_pos ht]
  push_cast
  field_simp
  ring

lemma run_ok_inv {pd? : Option PlotData} {b : Backend} {sd ed : Nat}
    {r : GrowthResult}
    (h : run_growth_analysis_by_plot pd? b sd ed = Except.ok r) :
    ∃ pd geom millis,
      r = assembleResult b pd geom sd ed "Sentinel-2" "Sentinel-2 NDVI" millis
            b.s2_pixel_counts ∨
      r = assembleResult b pd geom sd ed "Sentinel-1" "Sentinel-1 VH" millis
            b.s1_pixel_counts := by
  rcases pd? with _ | pd
  · simp [run_growth_analysis_by_plot] at h
  simp only [run_growth_analysis_by_plot] at h
  rcases hg : pd.geometry with _ | geom <;> rw [hg] at h
  · simp at h
  rcases h2 : (s2_candidates b.s2_scenes sd ed).head? with _ | i2 <;>
    rcases h1 : (s1_candidates b.s1_scenes sd ed).head? with _ | i1 <;>
      rw [h2, h1] at h <;> simp only at h
  · simp at h
  · simp only [Except.ok.injEq] at h
    exact ⟨pd, geom, i1.time_start, Or.inr h.symm⟩
  · simp only [Except.ok.injEq] at h
    exact ⟨pd, geom, i2.time_start, Or.inl h.symm⟩
  · split_ifs at h <;> simp only [Except.ok.injEq] at h
    · exact ⟨pd, geom, i2.time_start, Or.inl h.symm⟩
    · exact ⟨pd, geom, i1.time_start, Or.inr h.symm⟩

/-! ### Claim theorems: cloud filter and visualization -/

/-- C6 counterexample: a scene with cloud cover exactly 60, inside the parcel
bounds and the window, is dropped by the quality filter even though its
metric does not exceed 60 — refuting the claimed retention at exactly 60%. -/
theorem cloud_filter_claim_false_at_60 :
    cloud60Scene ∈ s2_bounds_date [cloud60Scene] 0 2000 ∧
    ¬ ((cloud60Scene ∈ s2_filtered [cloud60Scene] 0 2000) ↔
        ¬ cloud60Scene.cloudy_pixel_percentage > 60) := by
  decide

/-- C6 (amended): for every scene of the window covering the parcel, the
scene survives the quality filter iff its cloud-cover metric is strictly
less than 60; in particular a scene at exactly 60% cloud is excluded. -/
theorem cloud_filter_strictly_below_60 :
    ∀ (l : List S2Scene) (sd ed : Nat) (i : S2Scene),
      i ∈ s2_bounds_date l sd ed →
      ((i ∈ s2_filtered l sd ed ↔ i.cloudy_pixel_percentage < 60) ∧
        (i.cloudy_pixel_percentage = 60 → i ∉ s2_filtered l sd ed)) := by
  intro l sd ed i hi
  constructor
  · simp [s2_filtered, List.mem_filter, hi]
  · intro h60
    simp [s2_filtered, List.mem_filter, hi, h60]

/-- C6 witness: the 59%-cloud scene is retained, concretely. -/
theorem cloud_filter_strictly_below_60_witness :
    (cloud59Scene ∈ s2_filtered [cloud59Scene] 0 2000 ↔
      cloud59Scene.cloudy_pixel_percentage < 60) ∧
    (cloud59Scene.cloudy_pixel_percentage = 60 →
      cloud59Scene ∉ s2_filtered [cloud59Scene] 0 2000) :=
  cloud_filter_strictly_below_60 [cloud59Scene] 0 2000 cloud59Scene (by decide)

/-- C8 counterexample: the fixed palette of the visualization holds four
colors, not the claimed five (background plus one per class). -/
theorem palette_has_four_colors_not_five :
    growth_visualize.palette.length = 4 ∧
    ¬ growth_visualize.palette.length = 5 := by
  decide

/-- C8 (amended): the visualization combines the four masks into one
categorical raster encoded 1=weak, 2=stress, 3=moderate, 4=healthy with
background 0, applies a 10-meter-radius mean smoothing, and renders through
a fixed 4-color palette scaled to the range [0, 4]. -/
theorem visualization_combined_encoding :
    growth_focal_mean.radius = 10 ∧ growth_focal_mean.units = "meters" ∧
    growth_visualize.visMin = 0 ∧ growth_visualize.visMax = 4 ∧
    growth_visualize.palette.length = 4 ∧
    (∀ v : ℚ,
      (s2_weak_mask v = true → combined_class_s2 v = 1) ∧
      (s2_stress_mask v = true → combined_class_s2 v = 2) ∧
      (s2_moderate_mask v = true → combined_class_s2 v = 3) ∧
      (s2_healthy_mask v = true → combined_class_s2 v = 4) ∧
      (v < 0 → combined_class_s2 v = 0)) ∧
    (∀ v : ℚ,
      (s1_weak_mask v = true → combined_class_s1 v = 1) ∧
      (s1_stress_mask v = true → combined_class_s1 v = 2) ∧
      (s1_moderate_mask v = true → combined_class_s1 v = 3) ∧
      (s1_healthy_mask v = true → combined_class_s1 v = 4)) := by
  refine ⟨rfl, rfl, rfl, rfl, rfl, ?_, ?_⟩
  · intro v
    refine ⟨?_, ?_, ?_, ?_, ?_⟩
    · intro hw
      rw [s2_weak_mask_iff] at hw
      have hs : s2_stress_mask v = false := by
        rw [← Bool.not_eq_true, s2_stress_mask_iff]
        rintro ⟨k1, k2⟩; linarith [hw.1]
      have hm : s2_moderate_mask v = false := by
        rw [← Bool.not_eq_true, s2_moderate_mask_iff]
        rintro ⟨k1, k2⟩; linarith [hw.2]
      have hh : s2_healthy_mask v = false := by
        rw [← Bool.not_eq_true, s2_healthy_mask_iff]
        intro k; linarith [hw.2]
      have hw2 : s2_weak_mask v = true := by rw [s2_weak_mask_iff]; exact hw
      simp [combined_class_s2, combined_class_pixel, hs, hm, hh, hw2]
    · intro hst
      rw [s2_stress_mask_iff] at hst
      have hm : s2_moderate_mask v = false := by
        rw [← Bool.not_eq_true, s2_moderate_mask_iff]
        rintro ⟨k1, k2⟩; linarith [hst.2]
      have hh : s2_healthy_mask v = false := by
        rw [← Bool.not_eq_true, s2_healthy_mask_iff]
        intro k; linarith [hst.2]
      have hst2 : s2_stress_mask v = true := by rw [s2_stress_mask_iff]; exact hst
      simp [combined_class_s2, combined_class_pixel, hm, hh, hst2]
    · intro hmo
      rw [s2_moderate_mask_iff] at hmo
      have hh : s2_healthy_mask v = false := by
        rw [← Bool.not_eq_true, s2_healthy_mask_iff]
        intro k; linarith [hmo.2]
      have hmo2 : s2_moderate_mask v = true := by
        rw [s2_moderate_mask_iff]; exact hmo
      simp [combined_class_s2, combined_class_pixel, hh, hmo2]
    · intro hh
      simp [combined_class_s2, combined_class_pixel, hh]
    · intro hv
      have hs : s2_stress_mask v = false := by
        rw [← Bool.not_eq_true, s2_stress_mask_iff]
        rintro ⟨k1, k2⟩; linarith
      have hw : s2_weak_mask v = false := by
        rw [← Bool.not_eq_true, s2_weak_mask_iff]
        rintro ⟨k1, k2⟩; linarith
      have hm : s2_moderate_mask v = false := by
        rw [← Bool.not_eq_true, s2_moderate_mask_iff]
        rintro ⟨k1, k2⟩; linarith
      have hh : s2_healthy_mask v = false := by
        rw [← Bool.not_eq_true, s2_healthy_mask_iff]
        intro k; linarith
      simp [combined_class_s2, combined_class_pixel, hs, hw, hm, hh]
  · intro v
    refine ⟨?_, ?_, ?_, ?_⟩
    · intro hw
      rw [s1_weak_mask_iff] at hw
      have hs : s1_stress_mask v = false := by
        rw [← Bool.not_eq_true, s1_stress_mask_iff]
        rintro ⟨k1, k2⟩; linarith
      have hm : s1_moderate_mask v = false := by
        rw [← Bool.not_eq_true, s1_moderate_mask_iff]
        rintro ⟨k1, k2⟩; linarith
      have hh : s1_healthy_mask v = false := by
        rw [← Bool.not_eq_true, s1_healthy_mask_iff]
        intro k; linarith
      have hw2 : s1_weak_mask v = true := by rw [s1_weak_mask_iff]; exact hw
      simp [combined_class_s1, combined_class_pixel, hs, hm, hh, hw2]
    · intro hst
      rw [s1_stress_mask_iff] at hst
      have hm : s1_moderate_mask v = false := by
        rw [← Bool.not_eq_true, s1_moderate_mask_iff]
        rintro ⟨k1, k2⟩; linarith [hst.1]
      have hh : s1_healthy_mask v = false := by
        rw [← Bool.not_eq_true, s1_healthy_mask_iff]
        intro k; linarith [hst.1]
      have hst2 : s1_stress_mask v = true := by rw [s1_stress_mask_iff]; exact hst
      simp [combined_class_s1, combined_class_pixel, hm, hh, hst2]
    · intro hmo
      rw [s1_moderate_mask_iff] at hmo
      have hh : s1_healthy_mask v = false := by
        rw [← Bool.not_eq_true, s1_healthy_mask_iff]
        intro k; linarith [hmo.1]
      have hmo2 : s1_moderate_mask v = true := by
        rw [s1_moderate_mask_iff]; exact hmo
      simp [combined_class_s1, combined_class_pixel, hh, hmo2]
    · intro hh
      simp [combined_class_s1, combined_class_pixel, hh]

/-- C8 witness: concrete pixels land on their encoded class values. -/
theorem visualization_combined_encoding_witness :
    combined_class_s2 (3/10) = 1 ∧ combined_class_s1 (-12) = 2 := by
  constructor
  · exact (visualization_combined_encoding.2.2.2.2.2.1 (3/10)).1
      (by rw [s2_weak_mask_iff]; norm_num)
  · exact ((visualization_combined_encoding.2.2.2.2.2.2 (-12)).2.1)
      (by rw [s1_stress_mask_iff]; norm_num)

/-! ### Claim theorems: sensor selection and percentages -/

/-- C1: sensor selection is a deterministic tie-break: with both candidates
present the analyzer reports "Sentinel-2" iff the optical candidate's
capture timestamp is ≥ the radar candidate's (ties favor optical), and with
exactly one candidate present that sensor is reported. -/
theorem sensor_selection_tie_break :
    (∀ (pd : PlotData) (g : Geometry) (b : Backend) (sd ed : Nat)
        (i2 : S2Scene) (i1 : S1Scene),
      pd.geometry = some g →
      (s2_candidates b.s2_scenes sd ed).head? = some i2 →
      (s1_candidates b.s1_scenes sd ed).head? = some i1 →
      (run_growth_analysis_by_plot (some pd) b sd ed).map
          GrowthResult.sensor =
        Except.ok (if i1.time_start ≤ i2.time_start then "Sentinel-2"
          else "Sentinel-1")) ∧
    (∀ (pd : PlotData) (g : Geometry) (b : Backend) (sd ed : Nat)
        (i2 : S2Scene),
      pd.geometry = some g →
      (s2_candidates b.s2_scenes sd ed).head? = some i2 →
      (s1_candidates b.s1_scenes sd ed).head? = none →
      (run_growth_analysis_by_plot (some pd) b sd ed).map
          GrowthResult.sensor = Except.ok "Sentinel-2") ∧
    (∀ (pd : PlotData) (g : Geometry) (b : Backend) (sd ed : Nat)
        (i1 : S1Scene),
      pd.geometry = some g →
      (s2_candidates b.s2_scenes sd ed).head? = none →
      (s1_candidates b.s1_scenes sd ed).head? = some i1 →
      (run_growth_analysis_by_plot (some pd) b sd ed).map
          GrowthResult.sensor = Except.ok "Sentinel-1") := by
  refine ⟨?_, ?_, ?_⟩
  · intro pd g b sd ed i2 i1 hg h2 h1
    simp only [run_growth_analysis_by_plot]
    rw [hg, h2, h1]
    simp only [ge_iff_le]
    split_ifs <;> rfl
  · intro pd g b sd ed i2 hg h2 h1
    simp only [run_growth_analysis_by_plot]
    rw [hg, h2, h1]
    rfl
  · intro pd g b sd ed i1 hg h2 h1
    simp only [run_growth_analysis_by_plot]
    rw [hg, h2, h1]
    rfl

/-- C1 witness: the demo scenes (optical newer, radar older, then each
sensor alone) select the expected sensor. -/
theorem sensor_selection_tie_break_witness :
    (run_growth_analysis_by_plot (some demoPlot) demoBackend 0 2000).map
        GrowthResult.sensor =
      Except.ok (if demoS1.time_start ≤ demoS2.time_start then "Sentinel-2"
        else "Sentinel-1") ∧
    (run_growth_analysis_by_plot (some demoPlot) demoBackendS2only 0
        2000).map GrowthResult.sensor = Except.ok "Sentinel-2" ∧
    (run_growth_analysis_by_plot (some demoPlot) demoBackendS1only 0
        2000).map GrowthResult.sensor = Except.ok "Sentinel-1" :=
  ⟨sensor_selection_tie_break.1 demoPlot "demo-geometry" demoBackend 0 2000
      demoS2 demoS1 rfl rfl rfl,
   sensor_selection_tie_break.2.1 demoPlot "demo-geometry" demoBackendS2only
      0 2000 demoS2 rfl rfl rfl,
   sensor_selection_tie_break.2.2 demoPlot "demo-geometry" demoBackendS1only
      0 2000 demoS1 rfl rfl rfl⟩

/-- C5: in every result the total pixel count is the sum of the four
per-class counts (not the parcel's total), each class percentage is
count/total·100 when the total is positive — so the four percentages sum
exactly to 100 — and all four percentages are 0 when the total is 0. -/
theorem percentage_invariant :
    ∀ (pd? : Option PlotData) (b : Backend) (sd ed : Nat) (r : GrowthResult),
      run_growth_analysis_by_plot pd? b sd ed = Except.ok r →
      ∀ ps : PixelSummary, ps = r.pixel_summary →
        ps.total_pixel_count = ps.healthy_pixel_count +
          ps.moderate_pixel_count + ps.weak_pixel_count +
          ps.stress_pixel_count ∧
        (0 < ps.total_pixel_count →
          ps.healthy_pixel_percentage = (ps.healthy_pixel_count : ℚ) /
            (ps.total_pixel_count : ℚ) * 100 ∧
          ps.moderate_pixel_percentage = (ps.moderate_pixel_count : ℚ) /
            (ps.total_pixel_count : ℚ) * 100 ∧
          ps.weak_pixel_percentage = (ps.weak_pixel_count : ℚ) /
            (ps.total_pixel_count : ℚ) * 100 ∧
          ps.stress_pixel_percentage = (ps.stress_pixel_count : ℚ) /
            (ps.total_pixel_count : ℚ) * 100 ∧
          ps.healthy_pixel_percentage + ps.moderate_pixel_percentage +
            ps.weak_pixel_percentage + ps.stress_pixel_percentage = 100) ∧
        (ps.total_pixel_count = 0 →
          ps.healthy_pixel_percentage = 0 ∧
          ps.moderate_pixel_percentage = 0 ∧
          ps.weak_pixel_percentage = 0 ∧
          ps.stress_pixel_percentage = 0) := by
  intro pd? b sd ed r hr ps hps
  obtain ⟨pd, geom, millis, hcase⟩ := run_ok_inv hr
  have main : ∀ (cnts : ClassId → Option Nat) (sensor ds : String),
      r = assembleResult b pd geom sd ed sensor ds millis cnts →
      ps = r.pixel_summary →
      ps.total_pixel_count = ps.healthy_pixel_count +
        ps.moderate_pixel_count + ps.weak_pixel_count +
        ps.stress_pixel_count ∧
      (0 < ps.total_pixel_count →
        ps.healthy_pixel_percentage = (ps.healthy_pixel_count : ℚ) /
          (ps.total_pixel_count : ℚ) * 100 ∧
        ps.moderate_pixel_percentage = (ps.moderate_pixel_count : ℚ) /
          (ps.total_pixel_count : ℚ) * 100 ∧
        ps.weak_pixel_percentage = (ps.weak_pixel_count : ℚ) /
          (ps.total_pixel_count : ℚ) * 100 ∧
        ps.stress_pixel_percentage = (ps.stress_pixel_count : ℚ) /
          (ps.total_pixel_count : ℚ) * 100 ∧
        ps.healthy_pixel_percentage + ps.moderate_pixel_percentage +
          ps.weak_pixel_percentage + ps.stress_pixel_percentage = 100) ∧
      (ps.total_pixel_count = 0 →
        ps.healthy_pixel_percentage = 0 ∧
        ps.moderate_pixel_percentage = 0 ∧
        ps.weak_pixel_percentage = 0 ∧
        ps.stress_pixel_percentage = 0) := by
    intro cnts sensor ds hrr hpps
    subst hrr
    rw [assembleResult_pixel_summary] at hpps
    subst hpps
    dsimp only
    refine ⟨rfl, ?_, ?_⟩
    · intro hpos
      exact ⟨pct_pos hpos, pct_pos hpos, pct_pos hpos, pct_pos hpos,
        pct_sum_eq_100 hpos⟩
    · intro h0
      refine ⟨?_, ?_, ?_, ?_⟩ <;> rw [h0] <;> exact pct_zero _
  rcases hcase with h | h
  · exact main b.s2_pixel_counts "Sentinel-2" "Sentinel-2 NDVI" h hps
  · exact main b.s1_pixel_counts "Sentinel-1" "Sentinel-1 VH" h hps

/-- C5 witness: the demo invocation's pixel summary satisfies the
percentage invariant concretely. -/
theorem percentage_invariant_witness :
    demoResult.pixel_summary.total_pixel_count =
      demoResult.pixel_summary.healthy_pixel_count +
      demoResult.pixel_summary.moderate_pixel_count +
      demoResult.pixel_summary.weak_pixel_count +
      demoResult.pixel_summary.stress_pixel_count ∧
    (0 < demoResult.pixel_summary.total_pixel_count →
      demoResult.pixel_summary.healthy_pixel_percentage =
        (demoResult.pixel_summary.healthy_pixel_count : ℚ) /
          (demoResult.pixel_summary.total_pixel_count : ℚ) * 100 ∧
      demoResult.pixel_summary.moderate_pixel_percentage =
        (demoResult.pixel_summary.moderate_pixel_count : ℚ) /
          (demoResult.pixel_summary.total_pixel_count : ℚ) * 100 ∧
      demoResult.pixel_summary.weak_pixel_percentage =
        (demoResult.pixel_summary.weak_pixel_count : ℚ) /
          (demoResult.pixel_summary.total_pixel_count : ℚ) * 100 ∧
      demoResult.pixel_summary.stress_pixel_percentage =
        (demoResult.pixel_summary.stress_pixel_count : ℚ) /
          (demoResult.pixel_summary.total_pixel_count : ℚ) * 100 ∧
      demoResult.pixel_summary.healthy_pixel_percentage +
        demoResult.pixel_summary.moderate_pixel_percentage +
        demoResult.pixel_summary.weak_pixel_percentage +
        demoResult.pixel_summary.stress_pixel_percentage = 100) ∧
    (demoResult.pixel_summary.total_pixel_count = 0 →
      demoResult.pixel_summary.healthy_pixel_percentage = 0 ∧
      demoResult.pixel_summary.moderate_pixel_percentage = 0 ∧
      demoResult.pixel_summary.weak_pixel_percentage = 0 ∧
      demoResult.pixel_summary.stress_pixel_percentage = 0) :=
  percentage_invariant (some demoPlot) demoBackend 0 2000 demoResult rfl
    demoResult.pixel_summary rfl

/-! ### Claim theorems: error contract, determinism, None coercion -/

/-- C7: the analyzer fails with the input `ValueError` exactly when the
plot data is absent or lacks a geometry; given a geometry, it fails with
the no-imagery error exactly when neither sensor has a surviving candidate
in the window, and returns a complete result whenever either sensor has
one. -/
theorem error_contract :
    (∀ (b : Backend) (sd ed : Nat),
      run_growth_analysis_by_plot none b sd ed =
        Except.error (GrowthError.valueError "plot_data missing geometry")) ∧
    (∀ (pd : PlotData) (b : Backend) (sd ed : Nat), pd.geometry = none →
      run_growth_analysis_by_plot (some pd) b sd ed =
        Except.error (GrowthError.valueError "plot_data missing geometry")) ∧
    (∀ (pd : PlotData) (g : Geometry) (b : Backend) (sd ed : Nat),
      pd.geometry = some g →
      (run_growth_analysis_by_plot (some pd) b sd ed =
          Except.error (GrowthError.noImagery
            "No Sentinel-1 or Sentinel-2 images found") ↔
        ((s2_candidates b.s2_scenes sd ed).head? = none ∧
          (s1_candidates b.s1_scenes sd ed).head? = none))) ∧
    (∀ (pd : PlotData) (g : Geometry) (b : Backend) (sd ed : Nat)
        (i2 : S2Scene),
      pd.geometry = some g →
      (s2_candidates b.s2_scenes sd ed).head? = some i2 →
      isOkResult (run_growth_analysis_by_plot (some pd) b sd ed) = true) ∧
    (∀ (pd : PlotData) (g : Geometry) (b : Backend) (sd ed : Nat)
        (i1 : S1Scene),
      pd.geometry = some g →
      (s1_candidates b.s1_scenes sd ed).head? = some i1 →
      isOkResult (run_growth_analysis_by_plot (some pd) b sd ed) = true) := by
  refine ⟨fun b sd ed => rfl, ?_, ?_, ?_, ?_⟩
  · intro pd b sd ed hg
    simp only [run_growth_analysis_by_plot]
    rw [hg]
  · intro pd g b sd ed hg
    constructor
    · intro h
      rcases h2 : (s2_candidates b.s2_scenes sd ed).head? with _ | i2 <;>
        rcases h1 : (s1_candidates b.s1_scenes sd ed).head? with _ | i1
      · exact ⟨rfl, rfl⟩
      all_goals
        simp only [run_growth_analysis_by_plot] at h
        rw [hg, h2, h1] at h
        simp only at h
      · exact absurd h (by simp)
      · exact absurd h (by simp)
      · split_ifs at h <;> exact absurd h (by simp)
    · rintro ⟨h2, h1⟩
      simp only [run_growth_analysis_by_plot]
      rw [hg, h2, h1]
  · intro pd g b sd ed i2 hg h2
    simp only [run_growth_analysis_by_plot]
    rw [hg, h2]
    rcases h1 : (s1_candidates b.s1_scenes sd ed).head? with _ | i1
    · rfl
    · simp only
      split_ifs <;> rfl
  · intro pd g b sd ed i1 hg h1
    simp only [run_growth_analysis_by_plot]
    rw [hg, h1]
    rcases h2 : (s2_candidates b.s2_scenes sd ed).head? with _ | i2
    · rfl
    · simp only
      split_ifs <;> rfl

/-- C7 witness: the three failure/success shapes at concrete inputs. -/
theorem error_contract_witness :
    run_growth_analysis_by_plot none demoBackend 0 2000 =
      Except.error (GrowthError.valueError "plot_data missing geometry") ∧
    run_growth_analysis_by_plot (some demoPlotNoGeom) demoBackend 0 2000 =
      Except.error (GrowthError.valueError "plot_data missing geometry") ∧
    run_growth_analysis_by_plot (some demoPlot) demoEmptyBackend 0 2000 =
      Except.error (GrowthError.noImagery
        "No Sentinel-1 or Sentinel-2 images found") ∧
    isOkResult (run_growth_analysis_by_plot (some demoPlot) demoBackend 0
      2000) = true := by
  have H := error_contract
  exact ⟨H.1 demoBackend 0 2000,
    H.2.1 demoPlotNoGeom demoBackend 0 2000 rfl,
    (H.2.2.1 demoPlot "demo-geometry" demoEmptyBackend 0 2000 rfl).mpr
      ⟨rfl, rfl⟩,
    H.2.2.2.1 demoPlot "demo-geometry" demoBackend 0 2000 demoS2 rfl rfl⟩

/-- C9: two invocations with identical plot data, window, and backend
responses agree on analysis_date, sensor, and every pixel-summary count
(the analyzer is deterministic in those fields). -/
theorem deterministic_fields :
    ∀ (pd? : Option PlotData) (b : Backend) (sd ed : Nat)
      (r1 r2 : GrowthResult),
      run_growth_analysis_by_plot pd? b sd ed = Except.ok r1 →
      run_growth_analysis_by_plot pd? b sd ed = Except.ok r2 →
      r1.analysis_date = r2.analysis_date ∧ r1.sensor = r2.sensor ∧
      r1.pixel_summary.total_pixel_count =
        r2.pixel_summary.total_pixel_count ∧
      r1.pixel_summary.healthy_pixel_count =
        r2.pixel_summary.healthy_pixel_count ∧
      r1.pixel_summary.moderate_pixel_count =
        r2.pixel_summary.moderate_pixel_count ∧
      r1.pixel_summary.weak_pixel_count =
        r2.pixel_summary.weak_pixel_count ∧
      r1.pixel_summary.stress_pixel_count =
        r2.pixel_summary.stress_pixel_count := by
  intro pd? b sd ed r1 r2 h1 h2
  rw [h1] at h2
  injection h2 with h
  subst h
  exact ⟨rfl, rfl, rfl, rfl, rfl, rfl, rfl⟩

/-- C9 witness: the demo invocation agrees with itself on those fields. -/
theorem deterministic_fields_witness :
    demoResult.analysis_date = demoResult.analysis_date ∧
    demoResult.sensor = demoResult.sensor ∧
    demoResult.pixel_summary.total_pixel_count =
      demoResult.pixel_summary.total_pixel_count ∧
    demoResult.pixel_summary.healthy_pixel_count =
      demoResult.pixel_summary.healthy_pixel_count ∧
    demoResult.pixel_summary.moderate_pixel_count =
      demoResult.pixel_summary.moderate_pixel_count ∧
    demoResult.pixel_summary.weak_pixel_count =
      demoResult.pixel_summary.weak_pixel_count ∧
    demoResult.pixel_summary.stress_pixel_count =
      demoResult.pixel_summary.stress_pixel_count :=
  deterministic_fields (some demoPlot) demoBackend 0 2000 demoResult
    demoResult rfl rfl

/-- C10: if the backend's masked pixel-count reduction materializes as
`None` for one of the four class masks, that class's count is coerced to 0
rather than propagating or raising, and the invocation still returns a
complete result whose other class counts (and sensor) are intact. -/
theorem none_count_coerced_to_zero :
    ∀ (pd? : Option PlotData) (b : Backend) (sd ed : Nat) (cid : ClassId)
      (r : GrowthResult),
      run_growth_analysis_by_plot pd? b sd ed = Except.ok r →
      isOkResult (run_growth_analysis_by_plot pd? (backendWithNone b cid)
        sd ed) = true ∧
      (run_growth_analysis_by_plot pd? (backendWithNone b cid) sd ed).map
        (fun t => classCount t cid) = Except.ok 0 ∧
      (∀ c : ClassId, c ≠ cid →
        (run_growth_analysis_by_plot pd? (backendWithNone b cid) sd ed).map
          (fun t => classCount t c) = Except.ok (classCount r c)) ∧
      (run_growth_analysis_by_plot pd? (backendWithNone b cid) sd ed).map
        GrowthResult.sensor = Except.ok r.sensor := by
  intro pd? b sd ed cid r hr
  rcases pd? with _ | pd
  · simp [run_growth_analysis_by_plot] at hr
  simp only [run_growth_analysis_by_plot] at hr ⊢
  simp only [backendWithNone] at *
  rcases hg : pd.geometry with _ | geom <;> rw [hg] at hr
  · simp at hr
  rcases h2 : (s2_candidates b.s2_scenes sd ed).head? with _ | i2 <;>
    rcases h1 : (s1_candidates b.s1_scenes sd ed).head? with _ | i1 <;>
      rw [h2, h1] at hr <;> simp only at hr ⊢
  · simp at hr
  · injection hr with hr
    subst hr
    refine ⟨rfl, ?_, ?_, rfl⟩
    · simp [Except.map, classCount_assembleResult, setCountNone]
    · intro c hc
      simp [Except.map, classCount_assembleResult, setCountNone, hc]
  · injection hr with hr
    subst hr
    refine ⟨rfl, ?_, ?_, rfl⟩
    · simp [Except.map, classCount_assembleResult, setCountNone]
    · intro c hc
      simp [Except.map, classCount_assembleResult, setCountNone, hc]
  · split_ifs at hr ⊢ <;> injection hr with hr <;> subst hr <;>
      refine ⟨rfl, ?_, ?_, rfl⟩ <;>
        first
        | (intro c hc
           simp [Except.map, classCount_assembleResult, setCountNone, hc])
        | simp [Except.map, classCount_assembleResult, setCountNone]

/-- C10 witness: with the weak-class count forced to `None`, the demo
invocation still succeeds, reports 0 weak pixels, and keeps the healthy
count. -/
theorem none_count_coerced_to_zero_witness :
    isOkResult (run_growth_analysis_by_plot (some demoPlot)
      (backendWithNone demoBackend ClassId.weak) 0 2000) = true ∧
    (run_growth_analysis_by_plot (some demoPlot)
        (backendWithNone demoBackend ClassId.weak) 0 2000).map
      (fun t => classCount t ClassId.weak) = Except.ok 0 ∧
    (run_growth_analysis_by_plot (some demoPlot)
        (backendWithNone demoBackend ClassId.weak) 0 2000).map
      (fun t => classCount t ClassId.healthy) =
        Except.ok (classCount demoResult ClassId.healthy) := by
  have H := none_count_coerced_to_zero (some demoPlot) demoBackend 0 2000
    ClassId.weak demoResult rfl
  exact ⟨H.1, H.2.1, H.2.2.1 ClassId.healthy (by decide)⟩

/-- C3 witness: a backscatter of -16 dB is classified healthy, concretely. -/
theorem radar_class_ranges_witness :
    s1_healthy_mask (-16) = true :=
  (radar_class_ranges.1 (-16)).mpr (by norm_num)

/-- C4 witness: at NDVI 0.7 the optical moderate and healthy masks do not
overlap, concretely. -/
theorem class_masks_pairwise_disjoint_witness :
    (s2_moderate_mask (7/10) && s2_healthy_mask (7/10)) = false :=
  (class_masks_pairwise_disjoint (7/10)).1.2.2.2.2.2
